import Mathlib

/-
  Verification of the typed expression builder (tir/op/op.cc):
  numeric-type descriptors, numeric-limit functions, the binary
  type-promotion rule, constant-folding glue, operator constructors and
  reduction-combiner builders, shallowly embedded in Lean.

  Fatal precondition violations (ICHECK / LOG(FATAL)) are modelled as
  Option results: none stands for a fatal abort of the construction call.
-/

namespace TVM

/-- Numeric-type code of a DataType descriptor: signed integer, unsigned
integer, floating point, opaque handle, or an extension-supplied custom
code. Booleans are represented as unsigned integers of bit width 1, as in
the source runtime. -/
inductive TypeCode where
  | int
  | uint
  | float
  | handle
  | custom (code : Nat)
deriving DecidableEq, Repr

/-- Numeric-Type Descriptor: kind code, bit width, lane count. -/
structure DataType where
  code : TypeCode
  bits : Nat
  lanes : Nat
deriving DecidableEq, Repr

def DataType.is_int (d : DataType) : Bool :=
  match d.code with
  | .int => true
  | _ => false

def DataType.is_uint (d : DataType) : Bool :=
  match d.code with
  | .uint => true
  | _ => false

def DataType.is_float (d : DataType) : Bool :=
  match d.code with
  | .float => true
  | _ => false

def DataType.is_bool (d : DataType) : Bool :=
  d.is_uint && d.bits == 1

def DataType.is_handle (d : DataType) : Bool :=
  match d.code with
  | .handle => true
  | _ => false

/-- Scalar element type of a possibly vector type (lane count reset to 1). -/
def DataType.element_of (d : DataType) : DataType :=
  { d with lanes := 1 }

/-- Payload of a floating-point literal: a finite rational value or one of
the IEEE non-finite tags. Exact rationals stand in for the double payload
of the source FloatImm node. -/
inductive FVal where
  | finite (q : ℚ)
  | posInf
  | negInf
  | nan
deriving DecidableEq, Repr

def FVal.neg : FVal → FVal
  | .finite q => .finite (-q)
  | .posInf => .negInf
  | .negInf => .posInf
  | .nan => .nan

def FVal.fabs : FVal → FVal
  | .finite q => .finite |q|
  | .posInf => .posInf
  | .negInf => .posInf
  | .nan => .nan

def FVal.ffloor : FVal → FVal
  | .finite q => .finite (⌊q⌋ : ℤ)
  | v => v

def FVal.fceil : FVal → FVal
  | .finite q => .finite (⌈q⌉ : ℤ)
  | v => v

/-- Round half to even, the default rounding mode used by nearbyint. -/
def roundHalfEven (q : ℚ) : ℤ :=
  let f : ℤ := ⌊q⌋
  let r : ℚ := q - (f : ℚ)
  if r < 1/2 then f
  else if 1/2 < r then f + 1
  else if f % 2 = 0 then f else f + 1

def FVal.fround : FVal → FVal
  | .finite q => .finite (roundHalfEven q : ℤ)
  | v => v

def FVal.ftrunc : FVal → FVal
  | .finite q => .finite (if q < 0 then (⌈q⌉ : ℤ) else (⌊q⌋ : ℤ) : ℤ)
  | v => v

/-- Conversion of a double payload to a 64-bit integer payload: truncation
toward zero for finite values; the non-finite cases are undefined behavior
in the source and are mapped to 0 here (no claim depends on them). -/
def fvalToInt : FVal → Int
  | .finite q => q.num.tdiv (q.den : Int)
  | _ => 0

/-- Opcode tag for the generic binary operator expression nodes of the IR
(Add, Sub, Mul, Div, Mod, FloorDiv, FloorMod, Min, Max, the comparisons,
And, Or). -/
inductive BinOpKind where
  | addK
  | subK
  | mulK
  | divK
  | modK
  | floordivK
  | floormodK
  | minK
  | maxK
  | eqK
  | neK
  | ltK
  | leK
  | gtK
  | geK
  | andK
  | orK
deriving DecidableEq, Repr

/-- Expression node of the IR term graph, covering the variants that the
operator builders in tir/op/op.cc construct. Reduce inlines the
CommReducer descriptor fields (bound variable lists, combine expressions,
identity elements) followed by the source list, reduction domain,
predicate, value index and initial values. -/
inductive Expr where
  | IntImm (dtype : DataType) (value : Int)
  | FloatImm (dtype : DataType) (value : FVal)
  | Var (name : String) (dtype : DataType)
  | Cast (dtype : DataType) (value : Expr)
  | Broadcast (value : Expr) (lanes : Nat)
  | Binary (op : BinOpKind) (a b : Expr)
  | NotNode (a : Expr)
  | SelectNode (cond tv fv : Expr)
  | Call (dtype : DataType) (op : String) (args : List Expr)
  | Reduce (dtype : DataType) (lhsVars rhsVars : List (String × DataType))
      (combine identity source : List Expr) (rdom : List String)
      (cond : Expr) (valueIndex : Nat) (init : List Expr)

/-- Scalar boolean type, UInt(1, 1). -/
def boolDT : DataType := ⟨.uint, 1, 1⟩

def Expr.dtype : Expr → DataType
  | .IntImm d _ => d
  | .FloatImm d _ => d
  | .Var _ d => d
  | .Cast d _ => d
  | .Broadcast v l => { v.dtype with lanes := l }
  | .Binary op a _ =>
    match op with
    | .eqK | .neK | .ltK | .leK | .gtK | .geK | .andK | .orK =>
      ⟨.uint, 1, a.dtype.lanes⟩
    | _ => a.dtype
  | .NotNode a => ⟨.uint, 1, a.dtype.lanes⟩
  | .SelectNode _ tv _ => tv.dtype
  | .Call d _ _ => d
  | .Reduce d _ _ _ _ _ _ _ _ _ => d

/-- View of an expression as an integer-literal node, mirroring
as a pointer to IntImmNode in the source. -/
def Expr.asIntImm : Expr → Option Int
  | .IntImm _ v => some v
  | _ => none

/-- Custom-Type Registry: a process-wide lookup from an opaque custom type
code to registration status and the extension-supplied minimum-value
callback. Modelled as an explicit value threaded through the functions
that consult it. -/
structure Registry where
  registered : Nat → Bool
  minFunc : Nat → Option (Nat → Expr)

/-- Registry with no entries. -/
def emptyReg : Registry := ⟨fun _ => false, fun _ => none⟩

/-- Modelled from the spec: datatype Registry GetTypeRegistered from
target/datatype/registry.h is not under src. Per the data model, only
codes outside the builtin int/uint/float/handle set can be registered by
extensions. -/
def GetTypeRegistered (reg : Registry) : TypeCode → Bool
  | .custom c => reg.registered c
  | _ => false

/-- Modelled from the spec: datatype GetMinFunc from
target/datatype/registry.h is not under src. It looks up the minimum-value
callback registered for a custom type code. -/
def GetMinFunc (reg : Registry) : TypeCode → Option (Nat → Expr)
  | .custom c => reg.minFunc c
  | _ => none

/-- Modelled from the spec: MakeConstScalar from include/tvm/tir/op.h is
not under src. An integer payload becomes an IntImm for int types; for
uint types a negative value is a fatal error, a value within signed
64-bit range becomes an IntImm, and a larger value becomes a
large-uint-imm call carrying the low and high 32-bit halves; for float
types the payload is converted to a float literal; other kinds are a
fatal error. -/
def MakeConstScalarInt (t : DataType) (v : Int) : Option Expr :=
  if t.is_int then some (.IntImm t v)
  else if t.is_uint then
    if v < 0 then none
    else if v ≤ 9223372036854775807 then some (.IntImm t v)
    else some (.Call t "tir.large_uint_imm"
      [.IntImm ⟨.uint, 32, 1⟩ (v % 4294967296), .IntImm ⟨.uint, 32, 1⟩ (v / 4294967296)])
  else if t.is_float then some (.FloatImm t (.finite (v : ℚ)))
  else none

/-- Modelled from the spec: MakeConstScalar instantiated at a double
payload (include/tvm/tir/op.h, not under src). The payload is converted
to the target numeric kind by truncation for integer targets and kept as
is for float targets. -/
def MakeConstScalarF (t : DataType) (v : FVal) : Option Expr :=
  if t.is_int then some (.IntImm t (fvalToInt v))
  else if t.is_uint then
    if fvalToInt v < 0 then none
    else if fvalToInt v ≤ 9223372036854775807 then some (.IntImm t (fvalToInt v))
    else some (.Call t "tir.large_uint_imm"
      [.IntImm ⟨.uint, 32, 1⟩ (fvalToInt v % 4294967296),
       .IntImm ⟨.uint, 32, 1⟩ (fvalToInt v / 4294967296)])
  else if t.is_float then some (.FloatImm t v)
  else none

/-- Modelled from the spec: make_const from include/tvm/tir/op.h is not
under src. A scalar target takes the scalar constant directly; a vector
target broadcasts the scalar element constant to the target lane count. -/
def make_const (t : DataType) (v : Int) : Option Expr :=
  if t.lanes = 1 then MakeConstScalarInt t v
  else (MakeConstScalarInt t.element_of v).map fun s => .Broadcast s t.lanes

/-- Modelled from the spec: make_const at a double payload. -/
def make_const_f (t : DataType) (v : FVal) : Option Expr :=
  if t.lanes = 1 then MakeConstScalarF t v
  else (MakeConstScalarF t.element_of v).map fun s => .Broadcast s t.lanes

/-- Simple cast that only wraps in a Cast node when the type differs. -/
def SimpleCast (t : DataType) (value : Expr) : Expr :=
  if value.dtype = t then value else .Cast t value

/-- The manually unrolled element cast used by the vector branch of the
cast builder: a scalar source whose type differs from the element type is
constant-folded when literal and wrapped in a Cast node otherwise. -/
def castScalarElem (vtype : DataType) (value : Expr) : Option Expr :=
  if value.dtype ≠ vtype then
    match value with
    | .IntImm _ v => make_const vtype v
    | .FloatImm _ v => make_const_f vtype v
    | _ => some (.Cast vtype value)
  else some value

/-- The cast builder: identity on a matching type; literal payloads are
reinterpreted into scalar targets by constant construction; a scalar
source for a vector target is cast to the element type then broadcast;
two matching vector lane counts rewrap with the new type; any other lane
combination is a fatal error. -/
def cast (t : DataType) (value : Expr) : Option Expr :=
  if value.dtype = t then some value
  else if t.lanes = 1 then
    match value with
    | .IntImm _ v => make_const t v
    | .FloatImm _ v => make_const_f t v
    | _ => some (.Cast t value)
  else
    if value.dtype.lanes = 1 then
      (castScalarElem t.element_of value).map fun s => .Broadcast s t.lanes
    else if value.dtype.lanes = t.lanes then some (.Cast t value)
    else none

/-- Reinterpret: identity on a matching type, otherwise an opaque typed
call, never constant-folded. -/
def reinterpret (t : DataType) (value : Expr) : Expr :=
  if value.dtype = t then value else .Call t "tir.reinterpret" [value]

/-- Largest finite double, 2^1024 - 2^971. -/
def dblMax : ℚ := 2 ^ 1024 - 2 ^ 971

/-- Largest finite single-precision float, 2^128 - 2^104. -/
def fltMax : ℚ := 2 ^ 128 - 2 ^ 104

/-- Maximum representable value of a scalar numeric type: two's-complement
upper boundary for int bit widths up to 64, 2^bits - 1 for uint bit
widths up to 64, the IEEE largest finite value for float 64/32, and the
literal 65504 for float 16; anything else is a fatal error. The
Custom-Type Registry is never consulted. -/
def max_value (dtype : DataType) : Option Expr :=
  if dtype.lanes ≠ 1 then none
  else if dtype.is_int then
    if dtype.bits = 64 then some (.IntImm dtype 9223372036854775807)
    else if dtype.bits < 64 then some (.IntImm dtype (2 ^ (dtype.bits - 1) - 1))
    else none
  else if dtype.is_uint then
    if dtype.bits = 64 then make_const dtype 18446744073709551615
    else if dtype.bits < 64 then some (.IntImm dtype (2 ^ dtype.bits - 1))
    else none
  else if dtype.is_float then
    if dtype.bits = 64 then some (.FloatImm dtype (.finite dblMax))
    else if dtype.bits = 32 then some (.FloatImm dtype (.finite fltMax))
    else if dtype.bits = 16 then some (.FloatImm dtype (.finite 65504))
    else none
  else none

/-- Minimum representable value of a scalar numeric type. A type whose
code is registered in the Custom-Type Registry defers to the registered
minimum callback applied to the bit width, and it is a fatal error if no
callback was registered; otherwise the builtin boundaries mirror
max_value, with 0 for every uint width. -/
def min_value (reg : Registry) (dtype : DataType) : Option Expr :=
  if dtype.lanes ≠ 1 then none
  else if GetTypeRegistered reg dtype.code then
    match GetMinFunc reg dtype.code with
    | some f => some (f dtype.bits)
    | none => none
  else if dtype.is_int then
    if dtype.bits = 64 then some (.IntImm dtype (-9223372036854775808))
    else if dtype.bits < 64 then some (.IntImm dtype (-(2 ^ (dtype.bits - 1))))
    else none
  else if dtype.is_uint then some (.IntImm dtype 0)
  else if dtype.is_float then
    if dtype.bits = 64 then some (.FloatImm dtype (.finite (-dblMax)))
    else if dtype.bits = 32 then some (.FloatImm dtype (.finite (-fltMax)))
    else if dtype.bits = 16 then some (.FloatImm dtype (.finite (-65504)))
    else none
  else none

/-- Positive infinity of a scalar float type; the 16-bit case reuses the
32-bit infinity payload. The Custom-Type Registry is never consulted. -/
def infinity (dtype : DataType) : Option Expr :=
  if dtype.lanes ≠ 1 then none
  else if dtype.is_float then
    if dtype.bits = 64 then some (.FloatImm dtype .posInf)
    else if dtype.bits = 32 ∨ dtype.bits = 16 then some (.FloatImm dtype .posInf)
    else none
  else none

/-- Modelled from the spec: the sentinel test is_pos_inf from
arith/const_fold.h is not under src. A sentinel infinity is a float
literal recognized by pattern as holding the positive-infinity payload. -/
def is_pos_inf : Expr → Bool
  | .FloatImm _ .posInf => true
  | _ => false

/-- Modelled from the spec: the sentinel test is_neg_inf from
arith/const_fold.h is not under src. -/
def is_neg_inf : Expr → Bool
  | .FloatImm _ .negInf => true
  | _ => false

/-- Modelled from the spec: the Constant-Folding Engine
(arith/const_fold.h, not under src). When both operands are integer
literals it computes the literal result with the operator's exact
semantics; it declines to fold otherwise (non-literal operands, float
literals, and zero divisors are left to generic node construction). -/
def TryConstFold (op : BinOpKind) (a b : Expr) : Option Expr :=
  match a, b with
  | .IntImm da va, .IntImm _ vb =>
    match op with
    | .addK => some (.IntImm da (va + vb))
    | .subK => some (.IntImm da (va - vb))
    | .mulK => some (.IntImm da (va * vb))
    | .divK => if vb = 0 then none else some (.IntImm da (va.tdiv vb))
    | .modK => if vb = 0 then none else some (.IntImm da (va.tmod vb))
    | .floordivK => if vb = 0 then none else some (.IntImm da (va.fdiv vb))
    | .floormodK => if vb = 0 then none else some (.IntImm da (va.fmod vb))
    | .minK => some (.IntImm da (Min.min va vb))
    | .maxK => some (.IntImm da (Max.max va vb))
    | .eqK => some (.IntImm boolDT (if va = vb then 1 else 0))
    | .neK => some (.IntImm boolDT (if va = vb then 0 else 1))
    | .ltK => some (.IntImm boolDT (if va < vb then 1 else 0))
    | .leK => some (.IntImm boolDT (if va ≤ vb then 1 else 0))
    | .gtK => some (.IntImm boolDT (if vb < va then 1 else 0))
    | .geK => some (.IntImm boolDT (if vb ≤ va then 1 else 0))
    | .andK => some (.IntImm boolDT (if va ≠ 0 ∧ vb ≠ 0 then 1 else 0))
    | .orK => some (.IntImm boolDT (if va ≠ 0 ∨ vb ≠ 0 then 1 else 0))
  | _, _ => none

/-- Modelled from the spec: the unary fold of logical negation from
arith/const_fold.h, defined on a scalar boolean literal. -/
def TryConstFoldNot (a : Expr) : Option Expr :=
  match a with
  | .IntImm _ v => some (.IntImm boolDT (if v = 0 then 1 else 0))
  | _ => none

/-- The binary type-promotion rule: equal types pass through; a scalar
side is broadcast to a vector side and distinct vector lane counts are a
fatal error; then a non-float side is cast to a float (or
custom-registered) side's type, equal-signedness integers promote the
narrower side with ties keeping the right-hand type, mixed-signedness
integers both cast to a signed type of the maximum bit width, and any
other combination is a fatal error. -/
def BinaryOpMatchTypes (reg : Registry) (lhs rhs : Expr) : Option (Expr × Expr) :=
  if lhs.dtype = rhs.dtype then some (lhs, rhs)
  else
    let ltype := lhs.dtype
    let rtype := rhs.dtype
    let lanestep : Option (Expr × Expr) :=
      if ltype.lanes = 1 ∧ rtype.lanes ≠ 1 then some (.Broadcast lhs rtype.lanes, rhs)
      else if rtype.lanes = 1 ∧ ltype.lanes ≠ 1 then some (lhs, .Broadcast rhs ltype.lanes)
      else if ltype.lanes = rtype.lanes then some (lhs, rhs)
      else none
    lanestep.bind fun p =>
      let a := p.1
      let b := p.2
      if a.dtype = b.dtype then some (a, b)
      else if !a.dtype.is_float && (b.dtype.is_float || GetTypeRegistered reg b.dtype.code) then
        (cast b.dtype a).map fun a2 => (a2, b)
      else if (a.dtype.is_float || GetTypeRegistered reg a.dtype.code) && !b.dtype.is_float then
        (cast a.dtype b).map fun b2 => (a, b2)
      else if (a.dtype.is_int && b.dtype.is_int) || (a.dtype.is_uint && b.dtype.is_uint) then
        if a.dtype.bits < b.dtype.bits then (cast b.dtype a).map fun a2 => (a2, b)
        else (cast a.dtype b).map fun b2 => (a, b2)
      else if (a.dtype.is_int && b.dtype.is_uint) || (a.dtype.is_uint && b.dtype.is_int) then
        let bits := Nat.max a.dtype.bits b.dtype.bits
        some (SimpleCast ⟨.int, bits, a.dtype.lanes⟩ a,
              SimpleCast ⟨.int, bits, b.dtype.lanes⟩ b)
      else none

/-- Generic binary builder tail: promoted operands are constant folded
when possible, otherwise wrapped in a generic binary node. -/
def foldOrBuild (op : BinOpKind) (a b : Expr) : Expr :=
  (TryConstFold op a b).getD (.Binary op a b)

def add (reg : Registry) (a b : Expr) : Option Expr :=
  (BinaryOpMatchTypes reg a b).map fun p => foldOrBuild .addK p.1 p.2

def sub (reg : Registry) (a b : Expr) : Option Expr :=
  (BinaryOpMatchTypes reg a b).map fun p => foldOrBuild .subK p.1 p.2

def mul (reg : Registry) (a b : Expr) : Option Expr :=
  (BinaryOpMatchTypes reg a b).map fun p => foldOrBuild .mulK p.1 p.2

def div (reg : Registry) (a b : Expr) : Option Expr :=
  (BinaryOpMatchTypes reg a b).map fun p => foldOrBuild .divK p.1 p.2

/-- truncdiv asserts both operand kinds are integer or unsigned before
delegating to div. -/
def truncdiv (reg : Registry) (a b : Expr) : Option Expr :=
  if (a.dtype.is_int || a.dtype.is_uint) && (b.dtype.is_int || b.dtype.is_uint) then
    div reg a b
  else none

/-- truncmod promotes, folds and otherwise builds a Mod node; it performs
no operand-kind assertion. -/
def truncmod (reg : Registry) (a b : Expr) : Option Expr :=
  (BinaryOpMatchTypes reg a b).map fun p => foldOrBuild .modK p.1 p.2

def floordiv (reg : Registry) (a b : Expr) : Option Expr :=
  if (a.dtype.is_int || a.dtype.is_uint) && (b.dtype.is_int || b.dtype.is_uint) then
    (BinaryOpMatchTypes reg a b).map fun p => foldOrBuild .floordivK p.1 p.2
  else none

def floormod (reg : Registry) (a b : Expr) : Option Expr :=
  if (a.dtype.is_int || a.dtype.is_uint) && (b.dtype.is_int || b.dtype.is_uint) then
    (BinaryOpMatchTypes reg a b).map fun p => foldOrBuild .floormodK p.1 p.2
  else none

/-- The binary min builder: infinity-aware short-circuit on either
operand before type promotion and folding, then the generic
promote-fold-build path. -/
def min (reg : Registry) (a b : Expr) : Option Expr :=
  if is_pos_inf a then some b
  else if is_neg_inf a then some a
  else if is_pos_inf b then some a
  else if is_neg_inf b then some b
  else (BinaryOpMatchTypes reg a b).map fun p => foldOrBuild .minK p.1 p.2

/-- The binary max builder, symmetric to min. -/
def max (reg : Registry) (a b : Expr) : Option Expr :=
  if is_pos_inf a then some a
  else if is_neg_inf a then some b
  else if is_pos_inf b then some b
  else if is_neg_inf b then some a
  else (BinaryOpMatchTypes reg a b).map fun p => foldOrBuild .maxK p.1 p.2

def gt (reg : Registry) (a b : Expr) : Option Expr :=
  (BinaryOpMatchTypes reg a b).map fun p => foldOrBuild .gtK p.1 p.2

def ge (reg : Registry) (a b : Expr) : Option Expr :=
  (BinaryOpMatchTypes reg a b).map fun p => foldOrBuild .geK p.1 p.2

def lt (reg : Registry) (a b : Expr) : Option Expr :=
  (BinaryOpMatchTypes reg a b).map fun p => foldOrBuild .ltK p.1 p.2

def le (reg : Registry) (a b : Expr) : Option Expr :=
  (BinaryOpMatchTypes reg a b).map fun p => foldOrBuild .leK p.1 p.2

def eq (reg : Registry) (a b : Expr) : Option Expr :=
  (BinaryOpMatchTypes reg a b).map fun p => foldOrBuild .eqK p.1 p.2

def ne (reg : Registry) (a b : Expr) : Option Expr :=
  (BinaryOpMatchTypes reg a b).map fun p => foldOrBuild .neK p.1 p.2

/-- Logical conjunction asserts both operands are already boolean. -/
def logical_and (a b : Expr) : Option Expr :=
  if a.dtype.is_bool && b.dtype.is_bool then some (foldOrBuild .andK a b)
  else none

/-- Logical disjunction asserts both operands are already boolean. -/
def logical_or (a b : Expr) : Option Expr :=
  if a.dtype.is_bool && b.dtype.is_bool then some (foldOrBuild .orK a b)
  else none

/-- Logical negation asserts a boolean operand. -/
def logical_not (a : Expr) : Option Expr :=
  if a.dtype.is_bool then some ((TryConstFoldNot a).getD (.NotNode a))
  else none

/-- Zero constant of a type; a handle type reinterprets a 64-bit zero. -/
def make_zero (t : DataType) : Option Expr :=
  if t.is_handle then
    (make_const ⟨.uint, 64, 1⟩ 0).map fun z => reinterpret t z
  else make_const t 0

/-- Unary negation: literal payloads negate directly, any other operand
is rewritten as zero minus the operand. -/
def neg (reg : Registry) (a : Expr) : Option Expr :=
  match a with
  | .IntImm d v => some (.IntImm d (-v))
  | .FloatImm d v => some (.FloatImm d v.neg)
  | _ => (make_zero a.dtype).bind fun z => sub reg z a

/-- The shift-right builder: both operand kinds must be integer or
unsigned; after promotion a literal shift amount must lie in
[0, bit width) on pain of a fatal abort, two literals fold to the
arithmetic shift, a literal zero amount returns the left operand
unchanged, and otherwise a shift-right call is built.
Modelled from the spec: the literal-propagation wrapper
TVM_INDEX_CONST_PROPAGATION from arith/const_fold.h is not under src; its
body is inlined here following the spec's description of shift folding. -/
def shift_right (reg : Registry) (a b : Expr) : Option Expr :=
  if (a.dtype.is_int || a.dtype.is_uint) && (b.dtype.is_int || b.dtype.is_uint) then
    (BinaryOpMatchTypes reg a b).bind fun p =>
      let a := p.1
      let b := p.2
      let rtype := a.dtype
      match b.asIntImm with
      | some pb =>
        if 0 ≤ pb ∧ pb < (rtype.bits : Int) then
          match a.asIntImm with
          | some pa => some (.IntImm rtype (pa.fdiv (2 ^ pb.toNat)))
          | none =>
            if pb = 0 then some a
            else some (.Call rtype "tir.shift_right" [a, b])
        else none
      | none => some (.Call rtype "tir.shift_right" [a, b])
  else none

/-- The shift-left builder, symmetric to shift_right; two literals fold
to multiplication by the power of two.
Modelled from the spec: the literal-propagation wrapper
TVM_INDEX_CONST_PROPAGATION from arith/const_fold.h is not under src; its
body is inlined here following the spec's description of shift folding. -/
def shift_left (reg : Registry) (a b : Expr) : Option Expr :=
  if (a.dtype.is_int || a.dtype.is_uint) && (b.dtype.is_int || b.dtype.is_uint) then
    (BinaryOpMatchTypes reg a b).bind fun p =>
      let a := p.1
      let b := p.2
      let rtype := a.dtype
      match b.asIntImm with
      | some pb =>
        if 0 ≤ pb ∧ pb < (rtype.bits : Int) then
          match a.asIntImm with
          | some pa => some (.IntImm rtype (pa * 2 ^ pb.toNat))
          | none =>
            if pb = 0 then some a
            else some (.Call rtype "tir.shift_left" [a, b])
        else none
      | none => some (.Call rtype "tir.shift_left" [a, b])
  else none

/-- Absolute value: an int literal takes the platform absolute value, a
symbolic int expands to a select of the operand against its negation, a
float literal folds, a symbolic float becomes a fabs call, an unsigned
operand returns itself, and other kinds are a fatal error. -/
def abs (reg : Registry) (x : Expr) : Option Expr :=
  if x.dtype.is_int then
    match x with
    | .IntImm d v => some (.IntImm d (v.natAbs : Int))
    | _ =>
      (make_zero x.dtype).bind fun z =>
      (ge reg x z).bind fun c =>
      (neg reg x).bind fun nx =>
      some (.SelectNode c x nx)
  else if x.dtype.is_float then
    match x with
    | .FloatImm d v => some (.FloatImm d v.fabs)
    | _ => some (.Call x.dtype "tir.fabs" [x])
  else if x.dtype.is_uint then some x
  else none

/-- isnan: integer and unsigned operands are the boolean false constant;
a float literal is evaluated directly; a symbolic float becomes a typed
call, with a 16-bit operand widened to 32 bits first; other kinds are a
fatal error. -/
def isnan (x : Expr) : Option Expr :=
  let t : DataType := ⟨.uint, 1, x.dtype.lanes⟩
  if x.dtype.is_int || x.dtype.is_uint then make_const t 0
  else if x.dtype.is_float then
    match x with
    | .FloatImm _ v => make_const t (if v = .nan then 1 else 0)
    | _ =>
      if x.dtype.bits = 16 then
        (cast ⟨.float, 32, t.lanes⟩ x).map fun cx => .Call t "tir.isnan" [cx]
      else some (.Call t "tir.isnan" [x])
  else none

/-- isinf: integer and unsigned operands are the boolean false constant;
a float operand is built compositionally as the conjunction of the
equality of its absolute value with positive infinity and the negation
of isnan; other kinds are a fatal error. -/
def isinf (reg : Registry) (x : Expr) : Option Expr :=
  if x.dtype.is_int || x.dtype.is_uint then make_const ⟨.uint, 1, x.dtype.lanes⟩ 0
  else if x.dtype.is_float then
    (infinity x.dtype).bind fun infX =>
    (abs reg x).bind fun ax =>
    (eq reg ax infX).bind fun e =>
    (isnan x).bind fun n =>
    (logical_not n).bind fun nn =>
    logical_and e nn
  else none

/-- isfinite is the conjunction of the negations of isinf and isnan. -/
def isfinite (reg : Registry) (x : Expr) : Option Expr :=
  (isinf reg x).bind fun i =>
  (logical_not i).bind fun ni =>
  (isnan x).bind fun n =>
  (logical_not n).bind fun nn =>
  logical_and ni nn

/-- floor: integer and unsigned operands pass through unchanged; a float
literal folds; otherwise a floor call is built. -/
def floor (x : Expr) : Expr :=
  if x.dtype.is_int || x.dtype.is_uint then x
  else
    match x with
    | .FloatImm d v => .FloatImm d v.ffloor
    | _ => .Call x.dtype "tir.floor" [x]

/-- ceil: integer and unsigned operands pass through unchanged. -/
def ceil (x : Expr) : Expr :=
  if x.dtype.is_int || x.dtype.is_uint then x
  else
    match x with
    | .FloatImm d v => .FloatImm d v.fceil
    | _ => .Call x.dtype "tir.ceil" [x]

/-- round: integer and unsigned operands pass through unchanged. -/
def round (x : Expr) : Expr :=
  if x.dtype.is_int || x.dtype.is_uint then x
  else
    match x with
    | .FloatImm d v => .FloatImm d v.fround
    | _ => .Call x.dtype "tir.round" [x]

/-- trunc: integer and unsigned operands pass through unchanged; a float
literal rounds toward zero. -/
def trunc (x : Expr) : Expr :=
  if x.dtype.is_int || x.dtype.is_uint then x
  else
    match x with
    | .FloatImm d v => .FloatImm d v.ftrunc
    | _ => .Call x.dtype "tir.trunc" [x]

/-- The max-reduction builder: two fresh bound variables of the source
type combined by a Max node, with min_value of the source type as the
identity element. -/
def max_reduction (reg : Registry) (source : Expr) (rdom : List String)
    (init : List Expr) : Option Expr :=
  (min_value reg source.dtype).map fun identity =>
    .Reduce source.dtype [("x", source.dtype)] [("y", source.dtype)]
      [.Binary .maxK (.Var "x" source.dtype) (.Var "y" source.dtype)]
      [identity] [source] rdom (.IntImm boolDT 1) 0 init

/-- The min-reduction builder: two fresh bound variables of the source
type combined by a Min node, with max_value of the source type as the
identity element. -/
def min_reduction (source : Expr) (rdom : List String)
    (init : List Expr) : Option Expr :=
  (max_value source.dtype).map fun identity =>
    .Reduce source.dtype [("x", source.dtype)] [("y", source.dtype)]
      [.Binary .minK (.Var "x" source.dtype) (.Var "y" source.dtype)]
      [identity] [source] rdom (.IntImm boolDT 1) 0 init

/-- Boolean constant of a given lane count as the claims describe it: the
scalar boolean literal, broadcast across lanes for vector types. -/
def boolConst (lanes : Nat) (b : Bool) : Expr :=
  if lanes = 1 then .IntImm boolDT (if b then 1 else 0)
  else .Broadcast (.IntImm boolDT (if b then 1 else 0)) lanes

/-- Sample extension minimum callback used to exercise the registry. -/
def sampleMinFn : Nat → Expr := fun bits => .IntImm ⟨.custom 129, bits, 1⟩ 0

/-- Registry holding a single custom code with a minimum callback. -/
def sampleReg : Registry :=
  ⟨fun c => c == 129, fun c => if c == 129 then some sampleMinFn else none⟩

theorem neg_inf_not_pos_inf {a : Expr} (h : is_neg_inf a = true) :
    is_pos_inf a = false := by
  cases a with
  | FloatImm d v => cases v <;> simp_all [is_pos_inf, is_neg_inf]
  | _ => rfl

theorem float_not_intlike {d : DataType} (h : d.is_float = true) :
    (d.is_int || d.is_uint) = false := by
  cases d with
  | mk c b l => cases c <;> simp_all [DataType.is_int, DataType.is_uint, DataType.is_float]

theorem asIntImm_IntImm (d : DataType) (v : Int) :
    (Expr.IntImm d v).asIntImm = some v := rfl

theorem simpleCast_dtype (t : DataType) (e : Expr) : (SimpleCast t e).dtype = t := by
  unfold SimpleCast
  split
  · assumption
  · rfl

/-- C1: for the binary min and max builders, a recognized infinity
sentinel on either side determines the result purely by the sentinel rule
before type promotion or constant folding runs; in particular
min(+inf, i) for an integer literal i returns i unchanged with its
integer type. -/
theorem c1_min_max_infinity_short_circuit (reg : Registry) (a b : Expr) :
    (is_pos_inf a = true → min reg a b = some b ∧ max reg a b = some a) ∧
    (is_neg_inf a = true → min reg a b = some a ∧ max reg a b = some b) ∧
    (is_pos_inf a = false → is_neg_inf a = false → is_pos_inf b = true →
      min reg a b = some a ∧ max reg a b = some b) ∧
    (is_pos_inf a = false → is_neg_inf a = false → is_neg_inf b = true →
      min reg a b = some b ∧ max reg a b = some a) ∧
    (∀ (d : DataType) (v : Int),
      min reg (.FloatImm d .posInf) (.IntImm ⟨.int, 32, 1⟩ v)
        = some (.IntImm ⟨.int, 32, 1⟩ v)) := by
  refine ⟨?_, ?_, ?_, ?_, ?_⟩
  · intro h
    simp [min, max, h]
  · intro h
    simp [min, max, h, neg_inf_not_pos_inf h]
  · intro h1 h2 h3
    simp [min, max, h1, h2, h3]
  · intro h1 h2 h3
    simp [min, max, h1, h2, h3, neg_inf_not_pos_inf h3]
  · intro d v
    simp [min, is_pos_inf]

theorem c1_witness :
    min emptyReg (.FloatImm ⟨.float, 32, 1⟩ .posInf) (.IntImm ⟨.int, 32, 1⟩ 5)
      = some (.IntImm ⟨.int, 32, 1⟩ 5) :=
  ((c1_min_max_infinity_short_circuit emptyReg (.FloatImm ⟨.float, 32, 1⟩ .posInf)
      (.IntImm ⟨.int, 32, 1⟩ 5)).1 rfl).1

/-- C3 counterexample: truncmod over two float-typed variables does not
abort; it builds a Mod node, contradicting the claim that truncmod
asserts integer or unsigned operand kinds. -/
theorem c3_counterexample :
    truncmod emptyReg (.Var "x" ⟨.float, 32, 1⟩) (.Var "y" ⟨.float, 32, 1⟩)
      = some (.Binary .modK (.Var "x" ⟨.float, 32, 1⟩) (.Var "y" ⟨.float, 32, 1⟩)) ∧
    (truncmod emptyReg (.Var "x" ⟨.float, 32, 1⟩) (.Var "y" ⟨.float, 32, 1⟩)).isSome
      = true :=
  ⟨rfl, rfl⟩

/-- C3, amended: truncdiv asserts that both operand dtypes are of integer
or unsigned kind and aborts fatally when either side is of float kind;
truncmod performs no such assertion and delegates directly to the
promote-fold-build path, so float operands build a Mod node. -/
theorem c3_truncdiv_asserts_truncmod_does_not (reg : Registry) :
    (∀ a b : Expr, a.dtype.is_float = true ∨ b.dtype.is_float = true →
      truncdiv reg a b = none) ∧
    (∀ (na nb : String) (d : DataType), d.is_float = true →
      truncmod reg (.Var na d) (.Var nb d)
        = some (.Binary .modK (.Var na d) (.Var nb d))) := by
  constructor
  · intro a b h
    rcases h with h | h
    · simp [truncdiv, float_not_intlike h]
    · simp [truncdiv, float_not_intlike h]
  · intro na nb d _
    simp [truncmod, BinaryOpMatchTypes, foldOrBuild, TryConstFold, Expr.dtype]

theorem c3_witness :
    truncdiv emptyReg (.Var "x" ⟨.float, 32, 1⟩) (.Var "y" ⟨.float, 32, 1⟩) = none :=
  (c3_truncdiv_asserts_truncmod_does_not emptyReg).1 _ _ (Or.inl rfl)

/-- C4: min_value on a dtype with a registered custom code returns the
registered minimum callback applied to the bit width, and fails fatally
for a custom code with no registered callback or no registry entry;
max_value and infinity never consult the registry and fail fatally on
every custom-coded dtype. -/
theorem c4_min_value_registry (reg : Registry) (c bitsN : Nat) :
    (∀ f, reg.registered c = true → reg.minFunc c = some f →
      min_value reg ⟨.custom c, bitsN, 1⟩ = some (f bitsN)) ∧
    (reg.registered c = true → reg.minFunc c = none →
      min_value reg ⟨.custom c, bitsN, 1⟩ = none) ∧
    (reg.registered c = false → min_value reg ⟨.custom c, bitsN, 1⟩ = none) ∧
    max_value ⟨.custom c, bitsN, 1⟩ = none ∧
    infinity ⟨.custom c, bitsN, 1⟩ = none := by
  refine ⟨?_, ?_, ?_, rfl, rfl⟩
  · intro f h1 h2
    simp [min_value, GetTypeRegistered, GetMinFunc, h1, h2]
  · intro h1 h2
    simp [min_value, GetTypeRegistered, GetMinFunc, h1, h2]
  · intro h1
    simp [min_value, GetTypeRegistered, GetMinFunc, h1, DataType.is_int,
      DataType.is_uint, DataType.is_float]

theorem c4_witness :
    min_value sampleReg ⟨.custom 129, 8, 1⟩ = some (sampleMinFn 8) :=
  (c4_min_value_registry sampleReg 129 8).1 sampleMinFn rfl rfl

/-- C5: for scalar builtin numeric dtypes, max_value and min_value return
the exact representable boundary literals: the two's-complement
boundaries for every int bit width from 1 to 64, 127 and -128 for Int8,
255 and 0 for UInt8, and 65504 for Float16. -/
theorem c5_numeric_limit_boundaries (reg : Registry) :
    (∀ bitsN : Nat, 1 ≤ bitsN → bitsN ≤ 64 →
      max_value ⟨.int, bitsN, 1⟩
        = some (.IntImm ⟨.int, bitsN, 1⟩ (2 ^ (bitsN - 1) - 1)) ∧
      min_value reg ⟨.int, bitsN, 1⟩
        = some (.IntImm ⟨.int, bitsN, 1⟩ (-(2 ^ (bitsN - 1))))) ∧
    max_value ⟨.int, 8, 1⟩ = some (.IntImm ⟨.int, 8, 1⟩ 127) ∧
    min_value reg ⟨.int, 8, 1⟩ = some (.IntImm ⟨.int, 8, 1⟩ (-128)) ∧
    max_value ⟨.uint, 8, 1⟩ = some (.IntImm ⟨.uint, 8, 1⟩ 255) ∧
    min_value reg ⟨.uint, 8, 1⟩ = some (.IntImm ⟨.uint, 8, 1⟩ 0) ∧
    max_value ⟨.float, 16, 1⟩ = some (.FloatImm ⟨.float, 16, 1⟩ (.finite 65504)) := by
  refine ⟨?_, rfl, rfl, rfl, rfl, rfl⟩
  intro bitsN h1 h2
  by_cases h64 : bitsN = 64
  · subst h64
    constructor
    · simp [max_value, DataType.is_int]
    · simp [min_value, GetTypeRegistered, DataType.is_int]
  · have hlt : bitsN < 64 := lt_of_le_of_ne h2 h64
    constructor
    · simp [max_value, DataType.is_int, h64, hlt]
    · simp [min_value, GetTypeRegistered, DataType.is_int, h64, hlt]

theorem c5_witness :
    max_value ⟨.int, 8, 1⟩ = some (.IntImm ⟨.int, 8, 1⟩ (2 ^ 7 - 1)) :=
  ((c5_numeric_limit_boundaries emptyReg).1 8 (by decide) (by decide)).1

/-- C10: for every operand of integer or unsigned kind, the rounding
builders floor, ceil, round and trunc return the operand itself
completely unchanged. -/
theorem c10_rounding_identity_on_integers (x : Expr)
    (h : (x.dtype.is_int || x.dtype.is_uint) = true) :
    floor x = x ∧ ceil x = x ∧ round x = x ∧ trunc x = x := by
  simp [floor, ceil, round, trunc, h]

theorem c10_witness :
    floor (.Var "v" ⟨.int, 32, 1⟩) = .Var "v" ⟨.int, 32, 1⟩ :=
  (c10_rounding_identity_on_integers (.Var "v" ⟨.int, 32, 1⟩) rfl).1

/-- C2: the type-promotion rule applied to one signed-integer operand and
one unsigned-integer operand with equal lane counts casts both sides to a
signed integer type whose bit width is the maximum of the two input
widths; the tie always resolves to signed, in both argument orders. -/
theorem c2_mixed_sign_promotes_to_signed (reg : Registry) :
    (∀ (a b : Expr) (ba bb l : Nat), a.dtype = ⟨.int, ba, l⟩ → b.dtype = ⟨.uint, bb, l⟩ →
      ∃ p : Expr × Expr, BinaryOpMatchTypes reg a b = some p ∧
        p.1.dtype = ⟨.int, Nat.max ba bb, l⟩ ∧ p.2.dtype = ⟨.int, Nat.max ba bb, l⟩) ∧
    (∀ (a b : Expr) (ba bb l : Nat), a.dtype = ⟨.uint, ba, l⟩ → b.dtype = ⟨.int, bb, l⟩ →
      ∃ p : Expr × Expr, BinaryOpMatchTypes reg a b = some p ∧
        p.1.dtype = ⟨.int, Nat.max ba bb, l⟩ ∧ p.2.dtype = ⟨.int, Nat.max ba bb, l⟩) := by
  constructor
  · intro a b ba bb l ha hb
    refine ⟨(SimpleCast ⟨.int, Nat.max ba bb, l⟩ a, SimpleCast ⟨.int, Nat.max ba bb, l⟩ b),
      ?_, simpleCast_dtype _ _, simpleCast_dtype _ _⟩
    simp [BinaryOpMatchTypes, ha, hb, DataType.is_int, DataType.is_uint,
      DataType.is_float, GetTypeRegistered]
  · intro a b ba bb l ha hb
    refine ⟨(SimpleCast ⟨.int, Nat.max ba bb, l⟩ a, SimpleCast ⟨.int, Nat.max ba bb, l⟩ b),
      ?_, simpleCast_dtype _ _, simpleCast_dtype _ _⟩
    simp [BinaryOpMatchTypes, ha, hb, DataType.is_int, DataType.is_uint,
      DataType.is_float, GetTypeRegistered]

theorem c2_witness :
    ∃ p : Expr × Expr,
      BinaryOpMatchTypes emptyReg (.Var "a" ⟨.int, 32, 1⟩) (.Var "b" ⟨.uint, 32, 1⟩)
        = some p ∧
      p.1.dtype = ⟨.int, Nat.max 32 32, 1⟩ ∧ p.2.dtype = ⟨.int, Nat.max 32 32, 1⟩ :=
  (c2_mixed_sign_promotes_to_signed emptyReg).1
    (.Var "a" ⟨.int, 32, 1⟩) (.Var "b" ⟨.uint, 32, 1⟩) 32 32 1 rfl rfl

/-- C6: the min-reduction builder uses exactly max_value of the source
dtype as the combiner's identity element and the max-reduction builder
uses exactly min_value; a min-reduction over an Int32 source has identity
element 2147483647. -/
theorem c6_reduction_identity (reg : Registry) :
    (∀ (s : Expr) (rdom : List String) (init : List Expr) (m : Expr),
      max_value s.dtype = some m →
      min_reduction s rdom init
        = some (.Reduce s.dtype [("x", s.dtype)] [("y", s.dtype)]
            [.Binary .minK (.Var "x" s.dtype) (.Var "y" s.dtype)]
            [m] [s] rdom (.IntImm boolDT 1) 0 init)) ∧
    (∀ (s : Expr) (rdom : List String) (init : List Expr) (m : Expr),
      min_value reg s.dtype = some m →
      max_reduction reg s rdom init
        = some (.Reduce s.dtype [("x", s.dtype)] [("y", s.dtype)]
            [.Binary .maxK (.Var "x" s.dtype) (.Var "y" s.dtype)]
            [m] [s] rdom (.IntImm boolDT 1) 0 init)) ∧
    (∀ (rdom : List String) (init : List Expr) (nm : String),
      min_reduction (.Var nm ⟨.int, 32, 1⟩) rdom init
        = some (.Reduce ⟨.int, 32, 1⟩ [("x", ⟨.int, 32, 1⟩)] [("y", ⟨.int, 32, 1⟩)]
            [.Binary .minK (.Var "x" ⟨.int, 32, 1⟩) (.Var "y" ⟨.int, 32, 1⟩)]
            [.IntImm ⟨.int, 32, 1⟩ 2147483647] [.Var nm ⟨.int, 32, 1⟩] rdom
            (.IntImm boolDT 1) 0 init)) := by
  refine ⟨?_, ?_, ?_⟩
  · intro s rdom init m h
    simp [min_reduction, h]
  · intro s rdom init m h
    simp [max_reduction, h]
  · intro rdom init nm
    rfl

theorem c6_witness :
    min_reduction (.Var "s" ⟨.int, 32, 1⟩) ["r"] []
      = some (.Reduce ⟨.int, 32, 1⟩ [("x", ⟨.int, 32, 1⟩)] [("y", ⟨.int, 32, 1⟩)]
          [.Binary .minK (.Var "x" ⟨.int, 32, 1⟩) (.Var "y" ⟨.int, 32, 1⟩)]
          [.IntImm ⟨.int, 32, 1⟩ 2147483647] [.Var "s" ⟨.int, 32, 1⟩] ["r"]
          (.IntImm boolDT 1) 0 []) :=
  (c6_reduction_identity emptyReg).1 (.Var "s" ⟨.int, 32, 1⟩) ["r"] []
    (.IntImm ⟨.int, 32, 1⟩ 2147483647) rfl

/-- C7: for a non-literal left operand of integer or unsigned kind and a
literal right operand equal to 0 of the same type, both shifts return the
left operand itself; a literal shift amount outside the interval from 0
up to the bit width of the promoted type aborts fatally. -/
theorem c7_shift_zero_identity_and_range (reg : Registry) (x : Expr) (d : DataType)
    (hx : x.dtype = d) (hk : (d.is_int || d.is_uint) = true)
    (hnl : x.asIntImm = none) :
    (0 < d.bits →
      shift_right reg x (.IntImm d 0) = some x ∧
      shift_left reg x (.IntImm d 0) = some x) ∧
    (∀ n : Int, n < 0 ∨ (d.bits : Int) ≤ n →
      shift_right reg x (.IntImm d n) = none ∧
      shift_left reg x (.IntImm d n) = none) := by
  constructor
  · intro hb
    constructor
    · simp [shift_right, BinaryOpMatchTypes, Expr.dtype, asIntImm_IntImm, hx, hk, hnl, hb]
    · simp [shift_left, BinaryOpMatchTypes, Expr.dtype, asIntImm_IntImm, hx, hk, hnl, hb]
  · intro n hn
    have hrange : ¬(0 ≤ n ∧ n < (d.bits : Int)) := by omega
    constructor
    · simp [shift_right, BinaryOpMatchTypes, Expr.dtype, asIntImm_IntImm, hx, hk, hrange]
    · simp [shift_left, BinaryOpMatchTypes, Expr.dtype, asIntImm_IntImm, hx, hk, hrange]

theorem c7_witness :
    shift_right emptyReg (.Var "x" ⟨.int, 32, 1⟩) (.IntImm ⟨.int, 32, 1⟩ 0)
      = some (.Var "x" ⟨.int, 32, 1⟩) ∧
    shift_right emptyReg (.Var "x" ⟨.int, 32, 1⟩) (.IntImm ⟨.int, 32, 1⟩ 32) = none :=
  ⟨((c7_shift_zero_identity_and_range emptyReg (.Var "x" ⟨.int, 32, 1⟩) ⟨.int, 32, 1⟩
      rfl rfl rfl).1 (by decide)).1,
   ((c7_shift_zero_identity_and_range emptyReg (.Var "x" ⟨.int, 32, 1⟩) ⟨.int, 32, 1⟩
      rfl rfl rfl).2 32 (by norm_num)).1⟩

theorem mcsInt_dtype {t : DataType} {v : Int} {e : Expr}
    (h : MakeConstScalarInt t v = some e) : e.dtype = t := by
  unfold MakeConstScalarInt at h
  repeat' split at h
  all_goals first
    | exact Option.noConfusion h
    | (injection h with h1; subst h1; rfl)

theorem mcsF_dtype {t : DataType} {v : FVal} {e : Expr}
    (h : MakeConstScalarF t v = some e) : e.dtype = t := by
  unfold MakeConstScalarF at h
  repeat' split at h
  all_goals first
    | exact Option.noConfusion h
    | (injection h with h1; subst h1; rfl)

theorem make_const_dtype {t : DataType} {v : Int} {e : Expr}
    (h : make_const t v = some e) : e.dtype = t := by
  unfold make_const at h
  split at h
  · exact mcsInt_dtype h
  · cases hmc : MakeConstScalarInt t.element_of v with
    | none => rw [hmc] at h; exact Option.noConfusion h
    | some s =>
      rw [hmc] at h
      simp only [Option.map_some'] at h
      injection h with h1
      subst h1
      have hd := mcsInt_dtype hmc
      cases t with
      | mk c b l => simp [Expr.dtype, hd, DataType.element_of]

theorem make_const_f_dtype {t : DataType} {v : FVal} {e : Expr}
    (h : make_const_f t v = some e) : e.dtype = t := by
  unfold make_const_f at h
  split at h
  · exact mcsF_dtype h
  · cases hmc : MakeConstScalarF t.element_of v with
    | none => rw [hmc] at h; exact Option.noConfusion h
    | some s =>
      rw [hmc] at h
      simp only [Option.map_some'] at h
      injection h with h1
      subst h1
      have hd := mcsF_dtype hmc
      cases t with
      | mk c b l => simp [Expr.dtype, hd, DataType.element_of]

theorem castScalarElem_dtype {vt : DataType} {x s : Expr}
    (h : castScalarElem vt x = some s) : s.dtype = vt := by
  unfold castScalarElem at h
  split at h
  · split at h
    · exact make_const_dtype h
    · exact make_const_f_dtype h
    · injection h with h1; subst h1; rfl
  · rename_i hne
    injection h with h1
    subst h1
    exact not_not.mp hne

theorem cast_dtype {t : DataType} {x y : Expr} (h : cast t x = some y) :
    y.dtype = t := by
  unfold cast at h
  split at h
  · rename_i hxt
    injection h with h1
    subst h1
    exact hxt
  · split at h
    · split at h
      · exact make_const_dtype h
      · exact make_const_f_dtype h
      · injection h with h1; subst h1; rfl
    · split at h
      · cases hsc : castScalarElem t.element_of x with
        | none => rw [hsc] at h; exact Option.noConfusion h
        | some s =>
          rw [hsc] at h
          simp only [Option.map_some'] at h
          injection h with h1
          subst h1
          have hd := castScalarElem_dtype hsc
          cases t with
          | mk c b l => simp [Expr.dtype, hd, DataType.element_of]
      · split at h
        · injection h with h1; subst h1; rfl
        · exact Option.noConfusion h

/-- C8: the cast builder is idempotent once at the target type: whenever
cast(t, x) succeeds with result y, casting y to t again returns y
unchanged, because cast returns its operand whenever the operand dtype
already equals the target. -/
theorem c8_cast_idempotent (t : DataType) (x y : Expr) (h : cast t x = some y) :
    cast t y = some y := by
  have hd : y.dtype = t := cast_dtype h
  unfold cast
  simp [hd]

theorem c8_witness :
    cast ⟨.int, 32, 1⟩ (.IntImm ⟨.int, 32, 1⟩ 5) = some (.IntImm ⟨.int, 32, 1⟩ 5) :=
  c8_cast_idempotent ⟨.int, 32, 1⟩ (.IntImm ⟨.int, 64, 1⟩ 5) (.IntImm ⟨.int, 32, 1⟩ 5) rfl

theorem make_const_bool_false (L : Nat) :
    make_const ⟨.uint, 1, L⟩ 0 = some (boolConst L false) := by
  by_cases hl : L = 1 <;>
    simp [make_const, MakeConstScalarInt, boolConst, boolDT, DataType.element_of,
      DataType.is_int, DataType.is_uint, hl]

theorem isnan_intlike {x : Expr} (hk : (x.dtype.is_int || x.dtype.is_uint) = true) :
    isnan x = some (boolConst x.dtype.lanes false) := by
  unfold isnan
  simp only [hk, if_true]
  exact make_const_bool_false _

theorem isinf_intlike (reg : Registry) {x : Expr}
    (hk : (x.dtype.is_int || x.dtype.is_uint) = true) :
    isinf reg x = some (boolConst x.dtype.lanes false) := by
  unfold isinf
  simp only [hk, if_true]
  exact make_const_bool_false _

/-- C9 counterexample: isfinite on a vector integer operand returns the
conjunction of two negations of the broadcast false constant, an And
node, not the boolean literal true the claim requires for every operand
of integer kind. -/
theorem c9_counterexample :
    isfinite emptyReg (.Var "v" ⟨.int, 32, 4⟩)
      = some (.Binary .andK (.NotNode (.Broadcast (.IntImm boolDT 0) 4))
          (.NotNode (.Broadcast (.IntImm boolDT 0) 4))) ∧
    isfinite emptyReg (.Var "v" ⟨.int, 32, 4⟩) ≠ some (boolConst 4 true) := by
  constructor
  · rfl
  · intro hc
    have h1 : isfinite emptyReg (.Var "v" ⟨.int, 32, 4⟩)
        = some (.Binary .andK (.NotNode (.Broadcast (.IntImm boolDT 0) 4))
            (.NotNode (.Broadcast (.IntImm boolDT 0) 4))) := rfl
    rw [h1] at hc
    simp [boolConst] at hc

/-- C9, amended: isnan and isinf on integer and unsigned operands return
the boolean false constant of the operand's lane count; isfinite returns
the boolean literal true for scalar integer and unsigned operands, while
for vector operands it is the unfolded And of two negated false
constants; for float operands isinf is built exactly as the composition
of the equality of abs with infinity conjoined with the negation of
isnan, and isfinite exactly as the conjunction of the negations of isinf
and isnan. -/
theorem c9_isnan_isinf_isfinite (reg : Registry) :
    (∀ x : Expr, (x.dtype.is_int || x.dtype.is_uint) = true →
      isnan x = some (boolConst x.dtype.lanes false) ∧
      isinf reg x = some (boolConst x.dtype.lanes false)) ∧
    (∀ x : Expr, (x.dtype.is_int || x.dtype.is_uint) = true → x.dtype.lanes = 1 →
      isfinite reg x = some (.IntImm boolDT 1)) ∧
    (∀ x : Expr, x.dtype.is_float = true →
      isinf reg x
        = (infinity x.dtype).bind fun infX =>
          (abs reg x).bind fun ax =>
          (eq reg ax infX).bind fun e =>
          (isnan x).bind fun n =>
          (logical_not n).bind fun nn =>
          logical_and e nn) ∧
    (∀ x : Expr, isfinite reg x
        = (isinf reg x).bind fun i =>
          (logical_not i).bind fun ni =>
          (isnan x).bind fun n =>
          (logical_not n).bind fun nn =>
          logical_and ni nn) := by
  refine ⟨fun x hk => ⟨isnan_intlike hk, isinf_intlike reg hk⟩, ?_, ?_, fun x => rfl⟩
  · intro x hk hl
    unfold isfinite
    simp only [isinf_intlike reg hk, isnan_intlike hk, hl]
    rfl
  · intro x hf
    unfold isinf
    simp [float_not_intlike hf, hf]

theorem c9_witness :
    isfinite emptyReg (.Var "v" ⟨.int, 32, 1⟩) = some (.IntImm boolDT 1) :=
  (c9_isnan_isinf_isfinite emptyReg).2.1 (.Var "v" ⟨.int, 32, 1⟩) rfl rfl

end TVM
